import Mathlib

/-!
Verification of the account core of LibCore (SerenityOS, April 2021):
a shallow embedding of `Userland/Libraries/LibCore/Account.cpp` and its
header, together with theorems settling the specified properties.

Strings of the AK library are modelled as `Option (List Char)`: the value
`none` is the null string (no backing impl), `some s` is a string with
content `s`. A null string has length 0, so it is also empty in the sense
of `String::is_empty`, while `operator==` against the C literal `""`
is false for a null string (the null check against a non-null `char`
pointer fails first). Operations that would dereference a null impl or
index out of range (a `VERIFY` failure) are modelled by returning `none`
in an outer `Option`.
-/

namespace Serenity

/-- AKString: the AK `String` type, `none` for the null string. -/
abbrev AKString := Option (List Char)

/-- str: content of a Lean string literal as a character list. -/
def str (s : String) : List Char := s.data

/-- akIsNull: `String::is_null`, true when there is no backing impl. -/
def akIsNull (h : AKString) : Bool := h.isNone

/-- akChars: `String::characters` content; the null string renders empty. -/
def akChars (h : AKString) : List Char := h.getD []

/-- akIsEmpty: `String::is_empty`, i.e. `length() == 0`; a null string has
length 0 and is therefore empty. -/
def akIsEmpty (h : AKString) : Bool := (akChars h).isEmpty

/-- akEqEmptyCStr: AK `String::operator==(const char*)` applied to the C
literal `""`: a null string compares unequal to any non-null C string, and
otherwise the contents are compared. -/
def akEqEmptyCStr (h : AKString) : Bool :=
  match h with
  | none => false
  | some s => s.isEmpty

/-- akIndex: `String::operator[]`, which dereferences the impl and checks
the bound with `VERIFY(i < m_length)`; `none` models the crash on a null
string or an out-of-range index. -/
def akIndex (h : AKString) (i : Nat) : Option Char :=
  match h with
  | none => none
  | some s => s.get? i

/-- base64Alphabet: the RFC 4648 alphabet used by AK `encode_base64`. -/
def base64Alphabet : List Char :=
  str "ABCDEFGHIJKLMNOPQRSTUVWXYZabcdefghijklmnopqrstuvwxyz0123456789+/"

/-- b64c: the alphabet character for a 6-bit value. -/
def b64c (n : Nat) : Char := (base64Alphabet.get? n).getD 'A'

/-- encode_base64: AK `encode_base64` over bytes (values below 256),
processing three input bytes into four output characters, padding the
final group with the character `=`. -/
def encode_base64 : List Nat → List Char
  | [] => []
  | [a] => [b64c (a / 4), b64c (a % 4 * 16), '=', '=']
  | [a, b] => [b64c (a / 4), b64c (a % 4 * 16 + b / 16), b64c (b % 16 * 4), '=']
  | a :: b :: c :: rest =>
      b64c (a / 4) :: b64c (a % 4 * 16 + b / 16) :: b64c (b % 16 * 4 + c / 64)
        :: b64c (c % 64) :: encode_base64 rest

/-- get_salt: `get_salt()` of Account.cpp — the tag `$5$` followed by the
base64 encoding of 12 random bytes; the random bytes produced by
`fill_with_random` are passed in explicitly. -/
def get_salt (randomData : List Nat) : List Char :=
  str "$5$" ++ encode_base64 randomData

/-- CryptFn: the type of the external `crypt` primitive — given the secret
and a setting string (here always the stored hash or a fresh salt), it
returns the tagged hash, or `none` for the null pointer it yields on
failure (for example a malformed setting). -/
abbrev CryptFn := List Char → List Char → Option (List Char)

/-- Account: the in-memory entity of `LibCore::Account`, fields as in
Account.h. -/
structure Account where
  m_username : List Char
  m_password_hash : AKString
  m_uid : Nat
  m_gid : Nat
  m_gecos : List Char
  m_home_directory : List Char
  m_shell : List Char
  m_extra_gids : List Nat
  deriving DecidableEq

/-- authenticate: `Account::authenticate` — false when the stored hash is
null, true when it is empty, otherwise `crypt(password, stored)` is
compared against the stored hash with a null-pointer guard and `strcmp`. -/
def authenticate (c : CryptFn) (h : AKString) (password : List Char) : Bool :=
  if akIsNull h then false
  else if akIsEmpty h then true
  else
    match c password (akChars h) with
    | none => false
    | some out => decide (out = akChars h)

/-- Account.authenticate: method form of `authenticate` on the entity. -/
def Account.authenticate (a : Account) (c : CryptFn) (password : List Char) : Bool :=
  Serenity.authenticate c a.m_password_hash password

/-- Account.has_password: `Account::has_password` from Account.h —
`!m_password_hash.is_empty() || m_password_hash.is_null()`. -/
def Account.has_password (a : Account) : Bool :=
  !(akIsEmpty a.m_password_hash) || akIsNull a.m_password_hash

/-- Modelled from the spec: `verify(secret, stored_hash)` of the
Credential Hasher (section 4.1), whose implementation (LibCrypt) is not
under src/ — recompute the hash with the salt and tag embedded in the
stored hash (the crypt primitive takes the stored hash as its setting
string) and compare for exact equality; a failed computation on a
malformed stored hash yields false, not an error. -/
def verify (c : CryptFn) (secret stored : List Char) : Bool :=
  match c secret stored with
  | none => false
  | some out => decide (out = stored)

/-- isDisabled: the account-locked predicate of the spec — the stored
hash begins with the disable marker character `!`. -/
def isDisabled (h : AKString) : Bool := decide (akIndex h 0 = some '!')

/-- akStrip1: `substring(1, length() - 1)` of a string known to be
nonempty — the content without its first character; the result is a
non-null string (a zero-length substring is the non-null empty string). -/
def akStrip1 (h : AKString) : AKString := some ((akChars h).drop 1)

/-- akPrependBang: the `StringBuilder` sequence of `set_password_enabled`
that appends the marker `!` and then the current hash; appending a null
string to a builder appends nothing, and `build` never yields null. -/
def akPrependBang (h : AKString) : AKString := some ('!' :: akChars h)

/-- sp_hash: the hash transformation of `Account::set_password_enabled`,
translating the two short-circuit conditions
`enabled && m_password_hash != "" && m_password_hash[0] == '!'` and
`!enabled && (m_password_hash == "" || m_password_hash[0] != '!')`
with their evaluation order; the outer `none` models the `VERIFY`
failure of indexing a null string at position 0. -/
def sp_hash (enabled : Bool) (h : AKString) : Option AKString :=
  if enabled then
    if akEqEmptyCStr h then some h
    else
      match akIndex h 0 with
      | none => none
      | some c => if c = '!' then some (akStrip1 h) else some h
  else
    if akEqEmptyCStr h then some (akPrependBang h)
    else
      match akIndex h 0 with
      | none => none
      | some c => if c = '!' then some h else some (akPrependBang h)

/-- Account.set_password_enabled: `Account::set_password_enabled` lifted
to the entity; only `m_password_hash` is touched. -/
def Account.set_password_enabled (a : Account) (enabled : Bool) : Option Account :=
  (sp_hash enabled a.m_password_hash).map fun h => { a with m_password_hash := h }

/-- Account.set_password: `Account::set_password` —
`m_password_hash = crypt(password, get_salt().characters())`; a null
pointer from crypt yields the null string. The crypt primitive and the
random bytes consumed by `get_salt` are passed in explicitly. -/
def Account.set_password (a : Account) (c : CryptFn) (randomData : List Nat)
    (password : List Char) : Account :=
  { a with m_password_hash := c password (get_salt randomData) }

/-- Account.delete_password: `Account::delete_password` — the hash becomes
the empty (non-null) string. -/
def Account.delete_password (a : Account) : Account :=
  { a with m_password_hash := some [] }

/-- natChars: decimal rendering of an unsigned field, as `appendff`. -/
def natChars (n : Nat) : List Char := Nat.toDigits 10 n

/-- intChars: decimal rendering of a signed field, as `appendff`. -/
def intChars (i : Int) : List Char :=
  if i < 0 then '-' :: natChars i.natAbs else natChars i.natAbs

/-- col: the field separator of both stores. -/
def col : List Char := [':']

/-- nl: the line terminator emitted after every entry. -/
def nl : List Char := ['\n']

/-- colBangCol: the literal `:!:` of the passwd format string
`{}:!:{}:{}:{}:{}:{}` — the marker field is always the single
character `!`. -/
def colBangCol : List Char := [':', '!', ':']

/-- PasswdEntry: one record of the attribute store as delivered by
`getpwent` (`struct passwd`); `pw_passwd` is the on-disk marker field,
which Account.cpp never reads. -/
structure PasswdEntry where
  pw_name : List Char
  pw_passwd : List Char
  pw_uid : Nat
  pw_gid : Nat
  pw_gecos : List Char
  pw_dir : List Char
  pw_shell : List Char
  deriving DecidableEq

/-- SpwdEntry: one record of the credential store as delivered by
`getspent` (`struct spwd`). -/
structure SpwdEntry where
  sp_namp : List Char
  sp_pwdp : List Char
  sp_lstchg : Int
  sp_min : Int
  sp_max : Int
  sp_warn : Int
  sp_inact : Int
  sp_expire : Int
  sp_flag : Nat
  deriving DecidableEq

/-- passwdTargetLine: the line `generate_passwd_file` emits for an entry
whose uid matches — the in-memory fields of the account, marker `!`. -/
def passwdTargetLine (a : Account) : List Char :=
  a.m_username ++ colBangCol ++ natChars a.m_uid ++ col ++ natChars a.m_gid
    ++ col ++ a.m_gecos ++ col ++ a.m_home_directory ++ col ++ a.m_shell ++ nl

/-- passwdOtherLine: the line `generate_passwd_file` emits for every other
entry — the fields of the record, with the marker field written as the
literal `!` rather than the stored `pw_passwd`. -/
def passwdOtherLine (e : PasswdEntry) : List Char :=
  e.pw_name ++ colBangCol ++ natChars e.pw_uid ++ col ++ natChars e.pw_gid
    ++ col ++ e.pw_gecos ++ col ++ e.pw_dir ++ col ++ e.pw_shell ++ nl

/-- emitPasswdEntry: the loop body of `generate_passwd_file` — the target
entry is selected by `p->pw_uid == m_uid`. -/
def emitPasswdEntry (a : Account) (e : PasswdEntry) : List Char :=
  if e.pw_uid = a.m_uid then passwdTargetLine a else passwdOtherLine e

/-- generate_passwd_file: `Account::generate_passwd_file` on the
enumeration of the existing store (the `getpwent` loop on its non-fault
path), one line per record in store order. -/
def generate_passwd_file (a : Account) (store : List PasswdEntry) : List Char :=
  (store.map (emitPasswdEntry a)).flatten

/-- shadowAging: the seven aging and flag fields of a credential record,
copied through unchanged by both branches of `generate_shadow_file`. -/
def shadowAging (e : SpwdEntry) : List Char :=
  intChars e.sp_lstchg ++ col ++ intChars e.sp_min ++ col ++ intChars e.sp_max
    ++ col ++ intChars e.sp_warn ++ col ++ intChars e.sp_inact ++ col
    ++ intChars e.sp_expire ++ col ++ natChars e.sp_flag

/-- shadowTargetLine: the line `generate_shadow_file` emits for the entry
whose name matches — the in-memory username and hash, aging fields copied
from the existing record. -/
def shadowTargetLine (a : Account) (e : SpwdEntry) : List Char :=
  a.m_username ++ col ++ akChars a.m_password_hash ++ col ++ shadowAging e ++ nl

/-- shadowOtherLine: the line `generate_shadow_file` emits for every other
entry — all nine fields of the record. -/
def shadowOtherLine (e : SpwdEntry) : List Char :=
  e.sp_namp ++ col ++ e.sp_pwdp ++ col ++ shadowAging e ++ nl

/-- emitShadowEntry: the loop body of `generate_shadow_file` — the target
entry is selected by `p->sp_namp == m_username`. -/
def emitShadowEntry (a : Account) (e : SpwdEntry) : List Char :=
  if e.sp_namp = a.m_username then shadowTargetLine a e else shadowOtherLine e

/-- generate_shadow_file: `Account::generate_shadow_file` on the
enumeration of the existing store (the `getspent` loop on its non-fault
path), one line per record in store order. -/
def generate_shadow_file (a : Account) (store : List SpwdEntry) : List Char :=
  (store.map (emitShadowEntry a)).flatten

/-- passwdStoreLine: the on-disk text line of an attribute-store record in
the store format of section 6 (`name:marker:uid:gid:gecos:home:shell`);
used to state byte-identity of re-emitted entries against the original
store content. -/
def passwdStoreLine (e : PasswdEntry) : List Char :=
  e.pw_name ++ col ++ e.pw_passwd ++ col ++ natChars e.pw_uid ++ col
    ++ natChars e.pw_gid ++ col ++ e.pw_gecos ++ col ++ e.pw_dir ++ col
    ++ e.pw_shell ++ nl

/-- shadowStoreLine: the on-disk text line of a credential-store record in
the store format of section 6
(`name:hash:last-changed:min:max:warn:inactive:expire:flag`). -/
def shadowStoreLine (e : SpwdEntry) : List Char :=
  e.sp_namp ++ col ++ e.sp_pwdp ++ col ++ shadowAging e ++ nl

/-- SyncEnv: outcomes of the system calls made by `Account::sync`, in
program order: the two `mkstemp` calls, the `fchmod` of the passwd
temporary, the two `write` calls, and the two `rename` calls. -/
structure SyncEnv where
  mkstempPasswdOk : Bool
  mkstempShadowOk : Bool
  fchmodOk : Bool
  writePasswdOk : Bool
  writeShadowOk : Bool
  renamePasswdOk : Bool
  renameShadowOk : Bool
  deriving DecidableEq

/-- SyncEvent: one attempted system call of `Account::sync`. -/
inductive SyncEvent where
  | mkstempPasswd
  | mkstempShadow
  | fchmodPasswd
  | writePasswd
  | writeShadow
  | renamePasswd
  | renameShadow
  deriving DecidableEq

/-- sync: `Account::sync` — the straight-line sequence of system calls
with its early exits. A failing `mkstemp`, `fchmod` or `write` hits
`VERIFY_NOT_REACHED` (modelled as result `none`); a failing `rename`
returns false; both renames succeeding returns true. The second component
is the trace of calls attempted, in order. -/
def sync (env : SyncEnv) : Option Bool × List SyncEvent :=
  if env.mkstempPasswdOk = false then
    (none, [SyncEvent.mkstempPasswd])
  else if env.mkstempShadowOk = false then
    (none, [SyncEvent.mkstempPasswd, SyncEvent.mkstempShadow])
  else if env.fchmodOk = false then
    (none, [SyncEvent.mkstempPasswd, SyncEvent.mkstempShadow, SyncEvent.fchmodPasswd])
  else if env.writePasswdOk = false then
    (none, [SyncEvent.mkstempPasswd, SyncEvent.mkstempShadow, SyncEvent.fchmodPasswd,
      SyncEvent.writePasswd])
  else if env.writeShadowOk = false then
    (none, [SyncEvent.mkstempPasswd, SyncEvent.mkstempShadow, SyncEvent.fchmodPasswd,
      SyncEvent.writePasswd, SyncEvent.writeShadow])
  else if env.renamePasswdOk = false then
    (some false, [SyncEvent.mkstempPasswd, SyncEvent.mkstempShadow, SyncEvent.fchmodPasswd,
      SyncEvent.writePasswd, SyncEvent.writeShadow, SyncEvent.renamePasswd])
  else if env.renameShadowOk = false then
    (some false, [SyncEvent.mkstempPasswd, SyncEvent.mkstempShadow, SyncEvent.fchmodPasswd,
      SyncEvent.writePasswd, SyncEvent.writeShadow, SyncEvent.renamePasswd,
      SyncEvent.renameShadow])
  else
    (some true, [SyncEvent.mkstempPasswd, SyncEvent.mkstempShadow, SyncEvent.fchmodPasswd,
      SyncEvent.writePasswd, SyncEvent.writeShadow, SyncEvent.renamePasswd,
      SyncEvent.renameShadow])

/-- LoginEnv: outcomes of the three system calls made by
`Account::login`, in program order. -/
structure LoginEnv where
  setgroupsOk : Bool
  setgidOk : Bool
  setuidOk : Bool
  deriving DecidableEq

/-- LoginEvent: one attempted system call of `Account::login`. -/
inductive LoginEvent where
  | setgroupsCall
  | setgidCall
  | setuidCall
  deriving DecidableEq

/-- login: `Account::login` — `setgroups`, then `setgid`, then `setuid`,
returning false at the first failure and true when all succeed; the
second component is the trace of calls attempted, in order. -/
def login (env : LoginEnv) : Bool × List LoginEvent :=
  if env.setgroupsOk = false then
    (false, [LoginEvent.setgroupsCall])
  else if env.setgidOk = false then
    (false, [LoginEvent.setgroupsCall, LoginEvent.setgidCall])
  else if env.setuidOk = false then
    (false, [LoginEvent.setgroupsCall, LoginEvent.setgidCall, LoginEvent.setuidCall])
  else
    (true, [LoginEvent.setgroupsCall, LoginEvent.setgidCall, LoginEvent.setuidCall])

/-- saltOfSetting: the salt-and-tag prefix a crypt implementation reads
back out of its setting string — for a tagged setting `$tag$salt...` the
prefix up to and including the salt, otherwise the prefix up to the first
tag separator. Part of the spec-modelled crypt primitive. -/
def saltOfSetting (s : List Char) : List Char :=
  match s with
  | [] => []
  | c :: rest =>
      if c = '$' then
        '$' :: rest.takeWhile (fun x => x ≠ '$') ++ '$'
          :: ((rest.dropWhile (fun x => x ≠ '$')).drop 1).takeWhile (fun x => x ≠ '$')
      else
        (c :: rest).takeWhile (fun x => x ≠ '$')

/-- digestModel: a deterministic digest of secret and salt standing in for
the one-way compression of the hash primitive. Part of the spec-modelled
crypt primitive. -/
def digestModel (secret salt : List Char) : List Char :=
  Nat.toDigits 16
    ((secret ++ salt).foldl (fun acc ch => (acc * 131 + ch.toNat) % 2 ^ 64) 5381)

/-- Modelled from the spec: the crypt hashing primitive of the Credential
Hasher (section 4.1), whose implementation (LibCrypt) is not under src/.
Per sections 4.1 and 6 it produces an algorithm-tagged hash string that
embeds the tag and salt taken from its setting string, in the format
`$tag$salt$digest`, with a digest that deterministically combines secret
and salt. -/
def cryptModel (secret setting : List Char) : Option (List Char) :=
  some (saltOfSetting setting ++ '$' :: digestModel secret (saltOfSetting setting))

/-- C1: for every account, `authenticate(secret)` returns false when the
in-memory credential is absent (null), true unconditionally for every
secret when the credential is empty, and otherwise exactly the result of
verifying the secret against the stored hash (re-hashing with the salt
embedded in the stored hash and comparing for exact equality); a
malformed stored hash, on which the hash primitive fails, yields
verification failure rather than an error. -/
theorem authenticate_matches_credential_state :
    ∀ (c : CryptFn) (password : List Char) (a : Account),
      (a.m_password_hash = none → a.authenticate c password = false) ∧
      (a.m_password_hash = some [] → a.authenticate c password = true) ∧
      (∀ s : List Char, s ≠ [] → a.m_password_hash = some s →
        a.authenticate c password = verify c password s ∧
        (c password s = none → a.authenticate c password = false)) := by
  intro c password a
  refine ⟨?_, ?_, ?_⟩
  · intro h
    simp [Account.authenticate, authenticate, h, akIsNull]
  · intro h
    simp [Account.authenticate, authenticate, h, akIsNull, akIsEmpty, akChars]
  · intro s hs hh
    cases s with
    | nil => exact absurd rfl hs
    | cons d t =>
      constructor
      · simp [Account.authenticate, authenticate, verify, hh, akIsNull, akIsEmpty, akChars]
      · intro hc
        simp [Account.authenticate, authenticate, hh, akIsNull, akIsEmpty, akChars, hc]

/-- Witness for C1 at a concrete set credential and a crypt primitive
that fails on it. -/
theorem authenticate_matches_credential_state_witness :
    Account.authenticate ⟨str "u", some (str "Hx"), 1, 1, [], [], [], []⟩
        (fun _ _ => none) (str "pw")
      = verify (fun _ _ => none) (str "pw") (str "Hx") :=
  ((authenticate_matches_credential_state (fun _ _ => none) (str "pw")
      ⟨str "u", some (str "Hx"), 1, 1, [], [], [], []⟩).2.2
    (str "Hx") (by decide) rfl).1

/-- C9: `has_password()` returns true both when the credential is set
(nonempty hash) and when it is absent (null), and false exactly when the
credential is empty; authentication against an absent credential fails
for every secret. -/
theorem has_password_classification :
    ∀ (a : Account) (c : CryptFn) (password : List Char),
      (a.m_password_hash = none →
        a.has_password = true ∧ a.authenticate c password = false) ∧
      (a.m_password_hash = some [] → a.has_password = false) ∧
      (∀ s : List Char, s ≠ [] → a.m_password_hash = some s →
        a.has_password = true) := by
  intro a c password
  refine ⟨?_, ?_, ?_⟩
  · intro h
    constructor
    · simp [Account.has_password, h, akIsNull, akIsEmpty, akChars]
    · simp [Account.authenticate, authenticate, h, akIsNull]
  · intro h
    simp [Account.has_password, h, akIsNull, akIsEmpty, akChars]
  · intro s hs hh
    cases s with
    | nil => exact absurd rfl hs
    | cons d t =>
      simp [Account.has_password, hh, akIsNull, akIsEmpty, akChars]

/-- Witness for C9 at a concrete absent credential. -/
theorem has_password_classification_witness :
    Account.has_password ⟨str "u", none, 1, 1, [], [], [], []⟩ = true ∧
    Account.authenticate ⟨str "u", none, 1, 1, [], [], [], []⟩
        (fun _ s => some s) (str "pw") = false :=
  (has_password_classification ⟨str "u", none, 1, 1, [], [], [], []⟩
    (fun _ s => some s) (str "pw")).1 rfl

/-- sp_hash on the null string crashes on the index for either flag. -/
theorem sp_hash_none (e : Bool) : sp_hash e none = none := by
  cases e <;> simp [sp_hash, akEqEmptyCStr, akIndex]

/-- sp_hash with the enable flag on the empty string is a no-op. -/
theorem sp_hash_nil_true : sp_hash true (some []) = some (some []) := by
  simp [sp_hash, akEqEmptyCStr]

/-- sp_hash with the disable flag on the empty string prepends the marker. -/
theorem sp_hash_nil_false : sp_hash false (some []) = some (some ['!']) := by
  simp [sp_hash, akEqEmptyCStr, akPrependBang, akChars]

/-- sp_hash with the enable flag on a nonempty string strips the first
character exactly when it is the marker. -/
theorem sp_hash_cons_true (c : Char) (t : List Char) :
    sp_hash true (some (c :: t))
      = some (if c = '!' then some t else some (c :: t)) := by
  by_cases hc : c = '!' <;>
    simp [sp_hash, akEqEmptyCStr, akIndex, akStrip1, akChars, hc]

/-- sp_hash with the disable flag on a nonempty string prepends the marker
exactly when the first character is not already the marker. -/
theorem sp_hash_cons_false (c : Char) (t : List Char) :
    sp_hash false (some (c :: t))
      = some (if c = '!' then some (c :: t) else some ('!' :: c :: t)) := by
  by_cases hc : c = '!' <;>
    simp [sp_hash, akEqEmptyCStr, akIndex, akPrependBang, akChars, hc]

/-- Disabling is idempotent at the hash level: a second disable after a
successful disable is a no-op. -/
theorem sp_false_idem (h h' : AKString) (hh : sp_hash false h = some h') :
    sp_hash false h' = some h' := by
  cases h with
  | none => rw [sp_hash_none] at hh; exact Option.noConfusion hh
  | some s =>
    cases s with
    | nil =>
      rw [sp_hash_nil_false] at hh
      have h2 := Option.some.inj hh
      subst h2
      rw [sp_hash_cons_false]
      simp
    | cons c t =>
      by_cases hc : c = '!'
      · subst hc
        rw [sp_hash_cons_false, if_pos rfl] at hh
        have h2 := Option.some.inj hh
        subst h2
        rw [sp_hash_cons_false, if_pos rfl]
      · rw [sp_hash_cons_false, if_neg hc] at hh
        have h2 := Option.some.inj hh
        subst h2
        rw [sp_hash_cons_false]
        simp

/-- Enabling is idempotent at the hash level provided the result of the
first enable does not itself still begin with the marker. -/
theorem sp_true_idem (h h' : AKString) (hh : sp_hash true h = some h')
    (hd : isDisabled h' = false) : sp_hash true h' = some h' := by
  cases h with
  | none => rw [sp_hash_none] at hh; exact Option.noConfusion hh
  | some s =>
    cases s with
    | nil =>
      rw [sp_hash_nil_true] at hh
      have h2 := Option.some.inj hh
      subst h2
      exact sp_hash_nil_true
    | cons c t =>
      by_cases hc : c = '!'
      · subst hc
        rw [sp_hash_cons_true, if_pos rfl] at hh
        have h2 := Option.some.inj hh
        subst h2
        cases t with
        | nil => exact sp_hash_nil_true
        | cons d t2 =>
          have hd2 : d ≠ '!' := by simpa [isDisabled, akIndex] using hd
          rw [sp_hash_cons_true, if_neg hd2]
      · rw [sp_hash_cons_true, if_neg hc] at hh
        have h2 := Option.some.inj hh
        subst h2
        rw [sp_hash_cons_true, if_neg hc]

/-- C4 (amended): disabling an already-disabled account is always a no-op
(whenever the first `set_password_enabled(false)` returns an account, a
second call returns it unchanged); enabling twice is likewise a no-op on
the second call, but only provided the hash produced by the first enable
does not itself still begin with the disable marker — a stored hash that
begins with two markers loses one marker per enable call, so there the
claimed idempotence fails. -/
theorem set_password_enabled_idempotent_amended :
    ∀ (a b : Account),
      (a.set_password_enabled false = some b →
        b.set_password_enabled false = some b) ∧
      (a.set_password_enabled true = some b →
        isDisabled b.m_password_hash = false →
        b.set_password_enabled true = some b) := by
  intro a b
  obtain ⟨u, h0, uid, gid, ge, hdir, sh, eg⟩ := a
  constructor
  · intro hab
    simp only [Account.set_password_enabled] at hab ⊢
    rcases Option.map_eq_some'.mp hab with ⟨h', hsp, rfl⟩
    have h2 := sp_false_idem _ _ hsp
    simp [h2]
  · intro hab hd
    simp only [Account.set_password_enabled] at hab ⊢
    rcases Option.map_eq_some'.mp hab with ⟨h', hsp, rfl⟩
    have h2 := sp_true_idem _ _ hsp hd
    simp [h2]

/-- Witness for the amended C4: disabling the already-disabled account
with hash `!h` again is a no-op. -/
theorem set_password_enabled_idempotent_amended_witness :
    Account.set_password_enabled ⟨str "u", some (str "!h"), 1, 1, [], [], [], []⟩ false
      = some ⟨str "u", some (str "!h"), 1, 1, [], [], [], []⟩ :=
  (set_password_enabled_idempotent_amended
      ⟨str "u", some (str "h"), 1, 1, [], [], [], []⟩
      ⟨str "u", some (str "!h"), 1, 1, [], [], [], []⟩).1 (by decide)

/-- Counterexample to C4 as stated: on the stored hash `!!h` (disabled,
with a hash that itself begins with the marker) the first enable yields
`!h` and the second enable strips again to `h`, so the second call does
not leave the hash equal to what it was after the first call. -/
theorem set_password_enabled_idempotent_counterexample :
    Account.set_password_enabled ⟨str "u", some (str "!!h"), 1, 1, [], [], [], []⟩ true
      = some ⟨str "u", some (str "!h"), 1, 1, [], [], [], []⟩ ∧
    Account.set_password_enabled ⟨str "u", some (str "!h"), 1, 1, [], [], [], []⟩ true
      = some ⟨str "u", some (str "h"), 1, 1, [], [], [], []⟩ ∧
    (⟨str "u", some (str "!h"), 1, 1, [], [], [], []⟩ : Account)
      ≠ ⟨str "u", some (str "h"), 1, 1, [], [], [], []⟩ := by
  decide

/-- C5 (amended): for every account whose credential is present (not
null) and not already disabled, `set_password_enabled(false)` followed by
`set_password_enabled(true)` restores the exact pre-disable hash; on an
already-disabled account the disable call is a no-op and the enable call
strips the marker, so the original hash is not restored. -/
theorem disable_enable_roundtrip_amended :
    ∀ (a : Account), a.m_password_hash ≠ none →
      isDisabled a.m_password_hash = false →
      (a.set_password_enabled false).bind (fun b => b.set_password_enabled true)
        = some a := by
  intro a hne hdis
  obtain ⟨u, h0, uid, gid, ge, hdir, sh, eg⟩ := a
  cases h0 with
  | none => exact absurd rfl hne
  | some s =>
    cases s with
    | nil =>
      simp [Account.set_password_enabled, sp_hash, akEqEmptyCStr, akIndex,
        akPrependBang, akStrip1, akChars]
    | cons c t =>
      have hc : c ≠ '!' := by simpa [isDisabled, akIndex] using hdis
      simp [Account.set_password_enabled, sp_hash, akEqEmptyCStr, akIndex,
        akPrependBang, akStrip1, akChars, hc]

/-- Witness for the amended C5 at a concrete enabled account. -/
theorem disable_enable_roundtrip_amended_witness :
    (Account.set_password_enabled ⟨str "u", some (str "h"), 1, 1, [], [], [], []⟩
          false).bind (fun b => b.set_password_enabled true)
      = some ⟨str "u", some (str "h"), 1, 1, [], [], [], []⟩ :=
  disable_enable_roundtrip_amended ⟨str "u", some (str "h"), 1, 1, [], [], [], []⟩
    (by decide) (by decide)

/-- Counterexample to C5 as stated: on the already-disabled hash `!h` the
disable call is a no-op and the enable call strips the marker, so the
round trip yields `h`, not the initial value `!h`. -/
theorem disable_enable_roundtrip_counterexample :
    (Account.set_password_enabled ⟨str "u", some (str "!h"), 1, 1, [], [], [], []⟩
          false).bind (fun b => b.set_password_enabled true)
      = some ⟨str "u", some (str "h"), 1, 1, [], [], [], []⟩ ∧
    (some (str "h") : AKString) ≠ some (str "!h") := by
  decide

/-- C6 (amended): `set_password(secret)` computes a fresh `$5$`-tagged
salt and stores the hash of the secret under that salt as the in-memory
credential, overwriting the previous value entirely and independently of
it; the disable marker is not preserved — whenever the hash primitive
returns an output that does not begin with the marker (as the tagged
format guarantees), the account is enabled afterwards regardless of its
prior enablement status. -/
theorem set_password_overwrites_amended :
    ∀ (c : CryptFn) (randomData : List Nat) (password : List Char) (a a' : Account),
      (a.set_password c randomData password).m_password_hash
        = c password (get_salt randomData) ∧
      (a.set_password c randomData password).m_password_hash
        = (a'.set_password c randomData password).m_password_hash ∧
      (get_salt randomData).take 3 = str "$5$" ∧
      (∀ out : List Char, c password (get_salt randomData) = some out →
        out.head? ≠ some '!' →
        isDisabled (a.set_password c randomData password).m_password_hash = false) := by
  intro c r p a a'
  refine ⟨rfl, rfl, ?_, ?_⟩
  · have h3 : str "$5$" = ['$', '5', '$'] := rfl
    simp [get_salt, h3]
  · intro out hout hhead
    show isDisabled (c p (get_salt r)) = false
    rw [hout]
    cases out with
    | nil => simp [isDisabled, akIndex]
    | cons d t =>
      simp only [List.head?] at hhead
      simp [isDisabled, akIndex]
      intro hd
      exact hhead (by rw [hd])

/-- Witness for the amended C6: a previously disabled account is enabled
after `set_password` with a tagged-output hash primitive. -/
theorem set_password_overwrites_amended_witness :
    isDisabled ((Account.set_password ⟨str "u", some (str "!h"), 1, 1, [], [], [], []⟩
        (fun _ _ => some (str "$5$x")) [] (str "pw")).m_password_hash) = false :=
  (set_password_overwrites_amended (fun _ _ => some (str "$5$x")) [] (str "pw")
      ⟨str "u", some (str "!h"), 1, 1, [], [], [], []⟩
      ⟨str "u", some (str "!h"), 1, 1, [], [], [], []⟩).2.2.2
    (str "$5$x") rfl (by decide)

/-- Counterexample to C6 as stated: the account with stored hash `!h` is
disabled before `set_password`, and enabled after it — the wholesale
assignment of the crypt output (which begins with the `$5$` tag, not the
marker) discards the enablement marker, so the enabled/disabled status is
not preserved. -/
theorem set_password_preserves_marker_counterexample :
    isDisabled (Account.m_password_hash
        ⟨str "u", some (str "!h"), 1, 1, [], [], [], []⟩) = true ∧
    isDisabled ((Account.set_password ⟨str "u", some (str "!h"), 1, 1, [], [], [], []⟩
        cryptModel (List.replicate 12 0) (str "hunter2")).m_password_hash) = false := by
  decide

/-- Non-matching attribute entries pass through the loop body unchanged. -/
theorem map_emitPasswd_frame (a : Account) (l : List PasswdEntry)
    (h : ∀ x ∈ l, x.pw_uid ≠ a.m_uid) :
    l.map (emitPasswdEntry a) = l.map passwdOtherLine := by
  induction l with
  | nil => rfl
  | cons e l ih =>
    have he : e.pw_uid ≠ a.m_uid := h e (by simp)
    have hl : ∀ x ∈ l, x.pw_uid ≠ a.m_uid := fun x hx => h x (by simp [hx])
    simp [emitPasswdEntry, he, ih hl]

/-- Non-matching credential entries pass through the loop body unchanged. -/
theorem map_emitShadow_frame (a : Account) (l : List SpwdEntry)
    (h : ∀ x ∈ l, x.sp_namp ≠ a.m_username) :
    l.map (emitShadowEntry a) = l.map shadowOtherLine := by
  induction l with
  | nil => rfl
  | cons e l ih =>
    have he : e.sp_namp ≠ a.m_username := h e (by simp)
    have hl : ∀ x ∈ l, x.sp_namp ≠ a.m_username := fun x hx => h x (by simp [hx])
    simp [emitShadowEntry, he, ih hl]

/-- C2 (amended): each regeneration enumerates the entire existing store
exactly once, in original order, substituting exactly the matching
entries; every non-matching credential-store entry is re-emitted
byte-identical to its on-disk line, but a non-matching attribute-store
entry is re-emitted with its marker field forced to the literal `!`
whatever it was on disk — so it is byte-identical exactly when its
original marker was already `!`, and changed otherwise. -/
theorem generate_preserves_entries_amended :
    ∀ (a : Account) (pre post : List PasswdEntry) (t : PasswdEntry)
      (spre spost : List SpwdEntry) (ts : SpwdEntry)
      (e : PasswdEntry) (es : SpwdEntry),
      ((∀ x ∈ pre, x.pw_uid ≠ a.m_uid) → (∀ x ∈ post, x.pw_uid ≠ a.m_uid) →
        t.pw_uid = a.m_uid →
        generate_passwd_file a (pre ++ t :: post)
          = (pre.map passwdOtherLine).flatten
            ++ (passwdTargetLine a ++ (post.map passwdOtherLine).flatten)) ∧
      (e.pw_passwd = ['!'] → passwdOtherLine e = passwdStoreLine e) ∧
      ((∀ x ∈ spre, x.sp_namp ≠ a.m_username) →
        (∀ x ∈ spost, x.sp_namp ≠ a.m_username) →
        ts.sp_namp = a.m_username →
        generate_shadow_file a (spre ++ ts :: spost)
          = (spre.map shadowOtherLine).flatten
            ++ (shadowTargetLine a ts ++ (spost.map shadowOtherLine).flatten)) ∧
      (shadowOtherLine es = shadowStoreLine es) := by
  intro a pre post t spre spost ts e es
  refine ⟨?_, ?_, ?_, rfl⟩
  · intro h1 h2 ht
    simp [generate_passwd_file, List.map_append, map_emitPasswd_frame a pre h1,
      map_emitPasswd_frame a post h2, emitPasswdEntry, ht]
  · intro hp
    simp [passwdOtherLine, passwdStoreLine, hp, colBangCol, col, List.append_assoc]
  · intro h1 h2 ht
    simp [generate_shadow_file, List.map_append, map_emitShadow_frame a spre h1,
      map_emitShadow_frame a spost h2, emitShadowEntry, ht]

/-- Witness for the amended C2 at a one-entry frame around the target. -/
theorem generate_preserves_entries_amended_witness :
    generate_passwd_file ⟨str "alice", some (str "H"), 5, 5, [], [], [], []⟩
        ([⟨str "bob", str "!", 1, 2, str "g", str "/h", str "/s"⟩]
          ++ ⟨str "alice", str "!", 5, 5, [], [], []⟩ :: [])
      = ([⟨str "bob", str "!", 1, 2, str "g", str "/h", str "/s"⟩].map
            passwdOtherLine).flatten
        ++ (passwdTargetLine ⟨str "alice", some (str "H"), 5, 5, [], [], [], []⟩
          ++ (([] : List PasswdEntry).map passwdOtherLine).flatten) :=
  (generate_preserves_entries_amended
      ⟨str "alice", some (str "H"), 5, 5, [], [], [], []⟩
      [⟨str "bob", str "!", 1, 2, str "g", str "/h", str "/s"⟩] []
      ⟨str "alice", str "!", 5, 5, [], [], []⟩ [] []
      ⟨str "x", str "X", 0, 0, 0, 0, 0, 0, 0⟩
      ⟨str "bob", str "!", 1, 2, str "g", str "/h", str "/s"⟩
      ⟨str "x", str "X", 0, 0, 0, 0, 0, 0, 0⟩).1
    (by decide) (by decide) rfl

/-- Counterexample to C2 as stated: a store holding one entry unrelated to
the account (uid 1 against account uid 100) whose on-disk marker field is
`x` is not re-emitted byte-identical — the regeneration rewrites the
marker field to `!`. -/
theorem generate_preserves_entries_counterexample :
    generate_passwd_file ⟨str "alice", some (str "H"), 100, 100, [], [], [], []⟩
        [⟨str "bob", str "x", 1, 2, str "g", str "/h", str "/s"⟩]
      ≠ passwdStoreLine ⟨str "bob", str "x", 1, 2, str "g", str "/h", str "/s"⟩ ∧
    (⟨str "bob", str "x", 1, 2, str "g", str "/h", str "/s"⟩ : PasswdEntry).pw_uid
      ≠ (⟨str "alice", some (str "H"), 100, 100, [], [], [], []⟩ : Account).m_uid := by
  decide

/-- C10: during regeneration the target entry of the attribute store is
selected by numeric uid equality alone — an entry with the same uid but a
different name is replaced by the in-memory fields, and an entry bearing
the same name but a different uid is not — whereas the target entry of
the credential store is selected by username equality. -/
theorem target_selection_by_uid_and_name :
    ∀ (a : Account) (e : PasswdEntry) (es : SpwdEntry),
      (e.pw_uid = a.m_uid → generate_passwd_file a [e] = passwdTargetLine a) ∧
      (e.pw_uid ≠ a.m_uid → generate_passwd_file a [e] = passwdOtherLine e) ∧
      (es.sp_namp = a.m_username →
        generate_shadow_file a [es] = shadowTargetLine a es) ∧
      (es.sp_namp ≠ a.m_username →
        generate_shadow_file a [es] = shadowOtherLine es) := by
  intro a e es
  refine ⟨?_, ?_, ?_, ?_⟩ <;> intro h <;>
    simp [generate_passwd_file, generate_shadow_file, emitPasswdEntry,
      emitShadowEntry, h]

/-- Witness for C10: an entry named `bob` with the uid of account `alice`
is replaced by the in-memory fields of `alice`. -/
theorem target_selection_by_uid_and_name_witness :
    generate_passwd_file ⟨str "alice", some (str "H"), 5, 5, [], [], [], []⟩
        [⟨str "bob", str "!", 5, 7, str "g", str "/h", str "/s"⟩]
      = passwdTargetLine ⟨str "alice", some (str "H"), 5, 5, [], [], [], []⟩ :=
  (target_selection_by_uid_and_name
      ⟨str "alice", some (str "H"), 5, 5, [], [], [], []⟩
      ⟨str "bob", str "!", 5, 7, str "g", str "/h", str "/s"⟩
      ⟨str "bob", str "B", 0, 0, 0, 0, 0, 0, 0⟩).1 rfl

/-- C7: in every execution of `sync`, the attribute store is installed
strictly before the credential store — whenever the credential-store
rename is attempted, the attribute-store rename occurs strictly earlier
in the trace — and when the attribute-store rename fails (all preceding
write steps having succeeded), `sync` reports failure without ever
attempting the credential-store rename. -/
theorem sync_install_order :
    ∀ (a b c d e f g : Bool),
      ((sync ⟨a, b, c, d, e, f, g⟩).2.contains SyncEvent.renameShadow = true →
        (sync ⟨a, b, c, d, e, f, g⟩).2.contains SyncEvent.renamePasswd = true ∧
        (sync ⟨a, b, c, d, e, f, g⟩).2.indexOf SyncEvent.renamePasswd
          < (sync ⟨a, b, c, d, e, f, g⟩).2.indexOf SyncEvent.renameShadow) ∧
      (a = true → b = true → c = true → d = true → e = true → f = false →
        (sync ⟨a, b, c, d, e, f, g⟩).1 = some false ∧
        (sync ⟨a, b, c, d, e, f, g⟩).2.contains SyncEvent.renameShadow = false) := by
  intro a b c d e f g
  cases a <;> cases b <;> cases c <;> cases d <;> cases e <;> cases f <;> cases g <;>
    decide

/-- Witness for C7 at the run whose attribute-store rename fails. -/
theorem sync_install_order_witness :
    (sync ⟨true, true, true, true, true, false, true⟩).1 = some false ∧
    (sync ⟨true, true, true, true, true, false, true⟩).2.contains
        SyncEvent.renameShadow = false :=
  (sync_install_order true true true true true false true).2
    rfl rfl rfl rfl rfl rfl

/-- C3 (amended): when the credential-store rename fails after the
attribute-store rename succeeded, `sync` returns false — exactly the
same result value it returns when the attribute-store rename itself
fails — so the boolean result distinguishes the partial install from
success but not from a full failure; no distinct failure kind is
reported. -/
theorem sync_partial_install_amended :
    ∀ (a b c d e g : Bool),
      a = true → b = true → c = true → d = true → e = true →
      (sync ⟨a, b, c, d, e, true, false⟩).1 = some false ∧
      (sync ⟨a, b, c, d, e, true, false⟩).1 = (sync ⟨a, b, c, d, e, false, g⟩).1 ∧
      (sync ⟨a, b, c, d, e, true, false⟩).2.contains SyncEvent.renamePasswd = true ∧
      (sync ⟨a, b, c, d, e, true, false⟩).2.contains SyncEvent.renameShadow = true := by
  intro a b c d e g
  cases a <;> cases b <;> cases c <;> cases d <;> cases e <;> cases g <;> decide

/-- Witness for the amended C3 at the all-writes-succeed run. -/
theorem sync_partial_install_amended_witness :
    (sync ⟨true, true, true, true, true, true, false⟩).1 = some false ∧
    (sync ⟨true, true, true, true, true, true, false⟩).1
      = (sync ⟨true, true, true, true, true, false, true⟩).1 ∧
    (sync ⟨true, true, true, true, true, true, false⟩).2.contains
        SyncEvent.renamePasswd = true ∧
    (sync ⟨true, true, true, true, true, true, false⟩).2.contains
        SyncEvent.renameShadow = true :=
  sync_partial_install_amended true true true true true true rfl rfl rfl rfl rfl

/-- Counterexample to C3 as stated: the run in which the second rename
fails after the first succeeded yields the result `some false`, equal to
the result of the run in which the first rename fails — the caller
cannot distinguish the partial install from a generic full failure, and
only success (`some true`) is distinct. -/
theorem sync_partial_install_counterexample :
    (sync ⟨true, true, true, true, true, true, false⟩).1 = some false ∧
    (sync ⟨true, true, true, true, true, false, true⟩).1 = some false ∧
    (sync ⟨true, true, true, true, true, true, false⟩).1
      = (sync ⟨true, true, true, true, true, false, true⟩).1 ∧
    (sync ⟨true, true, true, true, true, true, true⟩).1 = some true := by
  decide

/-- C8: `login` applies supplementary groups, then the primary group,
then the numeric user identity, strictly in that order (the trace is
always a prefix of `setgroups, setgid, setuid`, with `setgroups`
attempted first); if any step fails the call reports failure and does
not attempt the subsequent steps; no rollback of already-applied steps
occurs (the trace contains no further events after the failing step). -/
theorem login_order :
    ∀ (a b c : Bool),
      ((login ⟨a, b, c⟩).2.isPrefixOf
          [LoginEvent.setgroupsCall, LoginEvent.setgidCall, LoginEvent.setuidCall]
        = true) ∧
      ((login ⟨a, b, c⟩).1 = true ↔ a = true ∧ b = true ∧ c = true) ∧
      (a = false →
        (login ⟨a, b, c⟩).1 = false ∧
        (login ⟨a, b, c⟩).2 = [LoginEvent.setgroupsCall]) ∧
      (a = true → b = false →
        (login ⟨a, b, c⟩).1 = false ∧
        (login ⟨a, b, c⟩).2 = [LoginEvent.setgroupsCall, LoginEvent.setgidCall]) ∧
      (a = true → b = true → c = false →
        (login ⟨a, b, c⟩).1 = false ∧
        (login ⟨a, b, c⟩).2
          = [LoginEvent.setgroupsCall, LoginEvent.setgidCall,
              LoginEvent.setuidCall]) := by
  intro a b c
  cases a <;> cases b <;> cases c <;> decide

/-- Witness for C8 at the run whose primary-group step fails. -/
theorem login_order_witness :
    (login ⟨true, false, true⟩).1 = false ∧
    (login ⟨true, false, true⟩).2
      = [LoginEvent.setgroupsCall, LoginEvent.setgidCall] :=
  (login_order true false true).2.2.2.1 rfl rfl

end Serenity
